import Mathlib

/-!
Shallow embedding of the Scheduler + Dispatch Core of murphys7017/music-server.

Embedded modules:
* `app/models/scheduler_task.py` — the `SchedulerTask` row type;
* `app/core/scheduler.py` — `_calculate_next_run`, `_parse_cron_next_run`,
  `_execute_task`, the per-tick loop of `_check_and_execute_tasks`, and the
  administrative operations `add_scheduler_task`, `pause_task`, `resume_task`,
  `delete_task`;
* `app/core/message_queue.py` — `push_task` and the public-store operations
  `set_public`, `get_public`, `delete_public`, `cleanup`, `clear_store`.

Modelling conventions:
* Timestamps are `Int` seconds (the code uses `int(time.time())` for the
  scheduler and `time.time()` for the store; integer time suffices for every
  property below and keeps the boundary comparisons exact).
* Python exceptions escaping a function are `Except.error`; a function whose
  body is wrapped in `try/except` that swallows the exception is embedded as
  the `Except`-valued body plus a total wrapper performing the `except` branch.
* `json.loads` is not re-implemented: it is passed in as an arbitrary function
  `jloads : String → Except String Unit` deciding which parameter strings
  parse, so the theorems hold for every possible JSON-parsing behaviour.
* `datetime.fromtimestamp` / `datetime(...)` arithmetic in the cron branch is
  modelled with the process timezone taken as UTC (whole-hour arithmetic on
  the epoch timestamp); Python `%` and `//` on ints are floor operations, i.e.
  `Int.emod` / `Int.ediv`.
-/

/-- Row type of table `scheduler_task` (src/app/models/scheduler_task.py).
`run_count` and `max_runs` carry their column defaults 0, `enabled` default
true; nullable columns are `Option`. -/
structure SchedulerTask where
  task_id : String
  name : String
  task_type : String
  params : Option String
  schedule_type : String
  interval_seconds : Option Int
  cron_expression : Option String
  execute_at : Option Int
  last_run_at : Option Int
  next_run_at : Option Int
  run_count : Int
  max_runs : Int
  enabled : Bool
  created_at : Int
  updated_at : Int
  description : Option String
deriving Repr, DecidableEq

/-- A Python exception value escaping a function. -/
inductive PyErr where
  | valueError (msg : String)
deriving Repr, DecidableEq

/-- Helper for `split_fields`: scan the characters, `cur` holding the
(reversed) characters of the current field. -/
def split_ws_aux : List Char → List Char → List String
  | [], cur => if cur.isEmpty then [] else [String.mk cur.reverse]
  | c :: cs, cur =>
    if c.isWhitespace then
      (if cur.isEmpty then [] else [String.mk cur.reverse]) ++ split_ws_aux cs []
    else split_ws_aux cs (c :: cur)

/-- Python `str.split()` with no argument: split on runs of whitespace,
dropping empty pieces. -/
def split_fields (s : String) : List String :=
  split_ws_aux s.data []

/-- Python `str.startswith`. -/
def py_startswith (s pre : String) : Bool :=
  pre.data.isPrefixOf s.data

/-- Python `s[n:]`. -/
def py_drop (s : String) (n : Nat) : String :=
  String.mk (s.data.drop n)

/-- Accumulate the value of a run of decimal digits. -/
def digits_to_nat : List Char → Nat → Nat
  | [], acc => acc
  | c :: cs, acc => digits_to_nat cs (acc * 10 + (c.toNat - '0'.toNat))

/-- Python `int(s)` on a decimal literal with optional sign (ASCII digits);
`none` means the call raises `ValueError`. -/
def py_int (s : String) : Option Int :=
  let body := if py_startswith s "-" then (py_drop s 1).data else s.data
  if ¬ body.isEmpty ∧ body.all (fun c => c.isDigit) then
    if py_startswith s "-" then some (-(digits_to_nat body 0 : Int))
    else some (digits_to_nat body 0 : Int)
  else none

/-- Body of `Scheduler._parse_cron_next_run` (scheduler.py lines 239-267),
without the surrounding `try/except`.  `Except.error` marks an exception
raised inside the body:
* `int(parts[0][2:])` raising `ValueError` on a malformed `*/N` minute field;
* `datetime(year, month, day, hour + 1, 0, 0)` raising
  `ValueError` (`hour must be in 0..23`) when the current hour is 23, since
  the code adds 1 to the hour without rolling over the day. -/
def parse_cron_body (cron_expr : String) (now : Int) : Except PyErr (Option Int) :=
  let parts := split_fields cron_expr
  if ¬ parts.length = 5 then Except.ok none
  else if py_startswith (parts.headD "") "*/" then
    match py_int (py_drop (parts.headD "") 2) with
    | some m => Except.ok (some (now + m * 60))
    | none => Except.error (PyErr.valueError "invalid literal for int")
  else if (parts.headD "") = "0" ∧ ((parts.drop 1).headD "") = "*" then
    if (now.ediv 3600).emod 24 = 23 then
      Except.error (PyErr.valueError "hour must be in 0..23")
    else Except.ok (some (now - now.emod 3600 + 3600))
  else Except.ok (some (now + 3600))

/-- `Scheduler._parse_cron_next_run`: the body under its catch-all
`except`, which logs and returns `None`. -/
def parse_cron_next_run (cron_expr : String) (now : Int) : Option Int :=
  match parse_cron_body cron_expr now with
  | Except.ok r => r
  | Except.error _ => none

/-- `Scheduler._calculate_next_run` (scheduler.py lines 193-223).  Python
truthiness: `if interval_seconds:` is false for `None` and for 0;
`if cron_expression:` is false for `None` and for the empty string. -/
def calculate_next_run (task : SchedulerTask) (now : Int) : Option Int :=
  if task.schedule_type = "once" then none
  else if task.schedule_type = "interval" then
    match task.interval_seconds with
    | some i => if ¬ i = 0 then some (now + i) else none
    | none => none
  else if task.schedule_type = "cron" then
    match task.cron_expression with
    | some c => if ¬ c = "" then parse_cron_next_run c now else none
    | none => none
  else none

/-- The work-item dict built by `_execute_task` and pushed onto the queue. -/
structure NormalTask where
  task_id : String
  task_type : String
  params : Option String
  scheduler_task_id : String
  scheduler_task_name : String
deriving Repr, DecidableEq

/-- `params = json.loads(params_str) if params_str else {}` (scheduler.py
line 148): the parse runs only when the column is non-null and non-empty
(Python truthiness of `str`); its only effect relevant here is whether it
raises. -/
def parse_params (jloads : String → Except String Unit) (params : Option String) :
    Except String Unit :=
  match params with
  | some s => if s = "" then Except.ok () else jloads s
  | none => Except.ok ()

/-- The `normal_task` dict of scheduler.py lines 151-157; `uid` is the fresh
`str(uuid.uuid4())`. -/
def mk_normal_task (uid : String) (task : SchedulerTask) : NormalTask :=
  { task_id := uid
    task_type := task.task_type
    params := task.params
    scheduler_task_id := task.task_id
    scheduler_task_name := task.name }

/-- The state mutation of `_execute_task` (scheduler.py lines 166-182):
`last_run_at := now`, `run_count := run_count + 1`, recompute `next_run_at`,
disable when once or max runs reached, `updated_at := now`. -/
def execute_task_update (task : SchedulerTask) (now : Int) : SchedulerTask :=
  { task with
    last_run_at := some now
    run_count := task.run_count + 1
    next_run_at := calculate_next_run task now
    enabled :=
      if task.schedule_type = "once" ∨
          (task.max_runs > 0 ∧ task.run_count + 1 ≥ task.max_runs)
      then false else task.enabled
    updated_at := now }

/-- `Scheduler._execute_task` without its catch-all `except` (scheduler.py
lines 145-191).  The only statement in its body that can raise is
`json.loads(params_str)`: the queue push cannot fail (the dict always carries
the `type` and `task_id` keys) and `_persist_task` swallows its own errors.
On success it returns the mutated task row and the pushed work item. -/
def execute_task (jloads : String → Except String Unit) (uid : String)
    (task : SchedulerTask) (now : Int) :
    Except String (SchedulerTask × NormalTask) :=
  match parse_params jloads task.params with
  | Except.error e => Except.error e
  | Except.ok _ => Except.ok (execute_task_update task now, mk_normal_task uid task)

/-- Outcome of one due task inside a tick: `_execute_task`'s own `except`
logs the failure and leaves the row untouched, so the task is unchanged on
error and updated on success. -/
def task_after_tick (jloads : String → Except String Unit) (uid : String)
    (now : Int) (t : SchedulerTask) : SchedulerTask :=
  match execute_task jloads uid t now with
  | Except.ok p => p.1
  | Except.error _ => t

/-- The `for task in tasks` loop of `_check_and_execute_tasks` (scheduler.py
lines 97-101), processing tasks in query order; `ug i` supplies the fresh
uuid for the i-th task.  Returns the mutated rows (position by position) and
the work items pushed onto the queue, in push order. -/
def run_tick_from (jloads : String → Except String Unit) (ug : Nat → String)
    (now : Int) : List SchedulerTask → Nat → List SchedulerTask × List NormalTask
  | [], _ => ([], [])
  | t :: rest, i =>
    let r := run_tick_from jloads ug now rest (i + 1)
    match execute_task jloads (ug i) t now with
    | Except.ok p => (p.1 :: r.1, p.2 :: r.2)
    | Except.error _ => (t :: r.1, r.2)

/-- One tick over a list of due tasks. -/
def run_tick (jloads : String → Except String Unit) (ug : Nat → String)
    (now : Int) (tasks : List SchedulerTask) :
    List SchedulerTask × List NormalTask :=
  run_tick_from jloads ug now tasks 0

/-- The `enabled == True AND next_run_at <= now` query of
`_check_and_execute_tasks` (scheduler.py lines 90-93); a SQL comparison with
a NULL `next_run_at` is not satisfied. -/
def is_due (now : Int) (t : SchedulerTask) : Bool :=
  t.enabled && (match t.next_run_at with
    | some n => decide (n ≤ now)
    | none => false)

/-- The dict handed to `MemoryQueue.push_task`
(message_queue.py): only the presence of the `task_id` and `type` keys
affects `push_task`, so those are the modelled fields (`none` = key absent). -/
structure TaskDict where
  task_id : Option String
  ty : Option String
deriving Repr, DecidableEq

/-- `MemoryQueue.push_task` (message_queue.py lines 81-100): assign a fresh
uuid `uid` when the `task_id` key is absent, then raise `ValueError` when the
`type` key is absent, else put the dict on the unbounded `queue.Queue` (a put
on an unbounded queue never blocks) and return its `task_id`. -/
def push_task (uid : String) (q : List TaskDict) (task : TaskDict) :
    Except String (String × List TaskDict) :=
  let task' := match task.task_id with
    | none => { task with task_id := some uid }
    | some _ => task
  match task'.ty with
  | none => Except.error "Task must contain the type field"
  | some _ => Except.ok (task'.task_id.getD uid, q ++ [task'])

/-- One entry of `MemoryQueue._public_store`:
`{"value": ..., "expire_at": float | None}`. -/
structure PublicEntry (V : Type) where
  value : V
  expire_at : Option Int
deriving Repr, DecidableEq

/-- `MemoryQueue._public_store`, an association list with at most one entry
per key (a Python dict), generic in the stored value type. -/
abbrev PublicStore (V : Type) := List (String × PublicEntry V)

/-- Python `del store[key]`. -/
def store_erase {V : Type} (s : PublicStore V) (key : String) : PublicStore V :=
  s.filter (fun kv => ¬ kv.1 = key)

/-- Python `store[key]` lookup (`none` = key absent). -/
def store_lookup {V : Type} (s : PublicStore V) (key : String) :
    Option (PublicEntry V) :=
  (s.find? (fun kv => kv.1 = key)).map (fun kv => kv.2)

/-- `MemoryQueue.set_public` (message_queue.py lines 134-152):
`expire_at = None if ttl is None else time.time() + ttl`, then overwrite the
key's entry. -/
def set_public {V : Type} (s : PublicStore V) (key : String) (value : V)
    (ttl : Option Int) (now : Int) : PublicStore V :=
  (key, { value := value, expire_at := ttl.map (fun t => now + t) }) ::
    store_erase s key

/-- `MemoryQueue.get_public` (message_queue.py lines 154-177): absent key
returns none; an entry whose `expire_at` is non-null and strictly in the past
(`time.time() > expire_at`) is deleted and none is returned (lazy eviction);
otherwise the value is returned and the store untouched.  Returns the value
and the store after the call. -/
def get_public {V : Type} (s : PublicStore V) (key : String) (now : Int) :
    Option V × PublicStore V :=
  match store_lookup s key with
  | none => (none, s)
  | some entry =>
    match entry.expire_at with
    | some ea => if now > ea then (none, store_erase s key) else (some entry.value, s)
    | none => (some entry.value, s)

/-- `MemoryQueue.delete_public` (message_queue.py lines 179-194). -/
def delete_public {V : Type} (s : PublicStore V) (key : String) :
    Bool × PublicStore V :=
  match store_lookup s key with
  | some _ => (true, store_erase s key)
  | none => (false, s)

/-- `MemoryQueue.cleanup` (message_queue.py lines 196-210): the background
sweep deletes exactly the entries with a non-null `expire_at` strictly in the
past (`now > expire_at`). -/
def cleanup {V : Type} (s : PublicStore V) (now : Int) : PublicStore V :=
  s.filter (fun kv => match kv.2.expire_at with
    | some ea => decide (now ≤ ea)
    | none => true)

/-- `MemoryQueue.clear_store` (message_queue.py lines 222-227). -/
def clear_store {V : Type} (_ : PublicStore V) : PublicStore V := []

/-- The row constructed by `Scheduler.add_scheduler_task` (scheduler.py lines
329-350).  `next_run_at = execute_at if execute_at else now`: Python
truthiness, so a 0 (or absent) `execute_at` gives `now`; `run_count` takes
its column default 0; every optional argument is stored as passed, with no
validation and no substituted default.  `params` is the JSON text
`json.dumps(params)` when a non-empty dict was passed, else null. -/
def mk_scheduler_task (uid : String) (now : Int) (name task_type schedule_type : String)
    (params : Option String) (interval_seconds : Option Int)
    (cron_expression : Option String) (execute_at : Option Int)
    (max_runs : Int) (description : Option String) : SchedulerTask :=
  { task_id := uid
    name := name
    task_type := task_type
    params := params
    schedule_type := schedule_type
    interval_seconds := interval_seconds
    cron_expression := cron_expression
    execute_at := execute_at
    last_run_at := none
    next_run_at := some (match execute_at with
      | some e => if ¬ e = 0 then e else now
      | none => now)
    run_count := 0
    max_runs := max_runs
    enabled := true
    created_at := now
    updated_at := now
    description := description }

/-- `Scheduler.add_scheduler_task` (scheduler.py lines 298-363): build the
row and commit it.  `db_fail` injects a database failure at `db.add`/
`db.commit`; the `except` branch rolls back and re-raises, so a database
failure is the only way the call can fail — there is no field validation.
On success the new row is appended to the registry and the fresh id
returned. -/
def add_scheduler_task (reg : List SchedulerTask) (uid : String) (now : Int)
    (name task_type schedule_type : String) (params : Option String)
    (interval_seconds : Option Int) (cron_expression : Option String)
    (execute_at : Option Int) (max_runs : Int) (description : Option String)
    (db_fail : Bool) : Except String (String × List SchedulerTask) :=
  if db_fail then Except.error "Add scheduled task failed"
  else
    Except.ok (uid, reg ++ [mk_scheduler_task uid now name task_type
      schedule_type params interval_seconds cron_expression execute_at
      max_runs description])

/-- The mutation `pause_task` applies to the row it found:
`enabled := False`, `updated_at := now` (scheduler.py lines 371-372). -/
def pause_update (t : SchedulerTask) (now : Int) : SchedulerTask :=
  { t with enabled := false, updated_at := now }

/-- The mutation `resume_task` applies to the row it found:
`enabled := True`, `updated_at := now` (scheduler.py lines 390-391). -/
def resume_update (t : SchedulerTask) (now : Int) : SchedulerTask :=
  { t with enabled := true, updated_at := now }

/-- Apply `f` to the first row with the given id (the `.first()` row of the
query; `task_id` is the primary key). -/
def update_first (reg : List SchedulerTask) (tid : String)
    (f : SchedulerTask → SchedulerTask) : List SchedulerTask :=
  match reg with
  | [] => []
  | t :: rest =>
    if t.task_id = tid then f t :: rest else t :: update_first rest tid f

/-- Remove the first row with the given id (`db.delete(task)` on the
`.first()` row). -/
def remove_first (reg : List SchedulerTask) (tid : String) : List SchedulerTask :=
  match reg with
  | [] => []
  | t :: rest =>
    if t.task_id = tid then rest else t :: remove_first rest tid

/-- Body of `Scheduler.pause_task` (scheduler.py lines 365-382), without the
`except`: find the row; if present, mutate and commit (`db_fail` injects a
failure raised by the commit); if absent, return false without committing. -/
def pause_task_body (reg : List SchedulerTask) (tid : String) (now : Int)
    (db_fail : Bool) : Except String (Bool × List SchedulerTask) :=
  match reg.find? (fun t => t.task_id = tid) with
  | some _ =>
    if db_fail then Except.error "Pause task failed"
    else Except.ok (true, update_first reg tid (fun t => pause_update t now))
  | none => Except.ok (false, reg)

/-- `Scheduler.pause_task`: the `except` branch logs, rolls back (the
registry keeps its pre-call state) and returns false. -/
def pause_task (reg : List SchedulerTask) (tid : String) (now : Int)
    (db_fail : Bool) : Bool × List SchedulerTask :=
  match pause_task_body reg tid now db_fail with
  | Except.ok r => r
  | Except.error _ => (false, reg)

/-- Body of `Scheduler.resume_task` (scheduler.py lines 384-401), without
the `except`. -/
def resume_task_body (reg : List SchedulerTask) (tid : String) (now : Int)
    (db_fail : Bool) : Except String (Bool × List SchedulerTask) :=
  match reg.find? (fun t => t.task_id = tid) with
  | some _ =>
    if db_fail then Except.error "Resume task failed"
    else Except.ok (true, update_first reg tid (fun t => resume_update t now))
  | none => Except.ok (false, reg)

/-- `Scheduler.resume_task`: the `except` branch rolls back and returns
false. -/
def resume_task (reg : List SchedulerTask) (tid : String) (now : Int)
    (db_fail : Bool) : Bool × List SchedulerTask :=
  match resume_task_body reg tid now db_fail with
  | Except.ok r => r
  | Except.error _ => (false, reg)

/-- Body of `Scheduler.delete_task` (scheduler.py lines 403-419), without
the `except`. -/
def delete_task_body (reg : List SchedulerTask) (tid : String)
    (db_fail : Bool) : Except String (Bool × List SchedulerTask) :=
  match reg.find? (fun t => t.task_id = tid) with
  | some _ =>
    if db_fail then Except.error "Delete task failed"
    else Except.ok (true, remove_first reg tid)
  | none => Except.ok (false, reg)

/-- `Scheduler.delete_task`: the `except` branch rolls back and returns
false. -/
def delete_task (reg : List SchedulerTask) (tid : String)
    (db_fail : Bool) : Bool × List SchedulerTask :=
  match delete_task_body reg tid db_fail with
  | Except.ok r => r
  | Except.error _ => (false, reg)

/-! ## Demonstration fixtures -/

/-- A JSON-parse behaviour under which the string `"bad json"` fails to
parse and everything else parses. -/
def jl_demo : String → Except String Unit :=
  fun s => if s = "bad json" then Except.error "Expecting value" else Except.ok ()

/-- A uuid supply for demonstrations. -/
def ug_demo : Nat → String := fun _ => "wi"

/-- A due interval task whose params column holds malformed JSON. -/
def bad_task : SchedulerTask :=
  { task_id := "st-1"
    name := "broken"
    task_type := "music_scan"
    params := some "bad json"
    schedule_type := "interval"
    interval_seconds := some 60
    cron_expression := none
    execute_at := none
    last_run_at := none
    next_run_at := some 0
    run_count := 0
    max_runs := 0
    enabled := true
    created_at := 0
    updated_at := 0
    description := none }

/-- A well-formed due interval task. -/
def good_task : SchedulerTask :=
  { task_id := "st-2"
    name := "healthy"
    task_type := "music_scan"
    params := none
    schedule_type := "interval"
    interval_seconds := some 60
    cron_expression := none
    execute_at := none
    last_run_at := none
    next_run_at := some 0
    run_count := 0
    max_runs := 0
    enabled := true
    created_at := 0
    updated_at := 0
    description := none }

/-! ## Lemmas about the tick loop -/

/-- Each position of the tick's output is the per-task outcome of the task
at that position: the loop handles the tasks independently. -/
theorem run_tick_from_getElem (jloads : String → Except String Unit)
    (ug : Nat → String) (now : Int) (ts : List SchedulerTask) :
    ∀ (i j : Nat),
      (run_tick_from jloads ug now ts i).1[j]?
        = (ts[j]?).map (fun t => task_after_tick jloads (ug (i + j)) now t) := by
  induction ts with
  | nil => intro i j; simp [run_tick_from]
  | cons t rest ih =>
    intro i j
    cases j with
    | zero =>
      cases h : execute_task jloads (ug i) t now with
      | ok p =>
        simp only [run_tick_from, h, List.getElem?_cons_zero, Option.map_some',
          task_after_tick, Nat.add_zero]
      | error e =>
        simp only [run_tick_from, h, List.getElem?_cons_zero, Option.map_some',
          task_after_tick, Nat.add_zero]
    | succ j =>
      have hago : i + (j + 1) = (i + 1) + j := by omega
      cases h : execute_task jloads (ug i) t now with
      | ok p =>
        simp only [run_tick_from, h, List.getElem?_cons_succ, hago]
        exact ih (i + 1) j
      | error e =>
        simp only [run_tick_from, h, List.getElem?_cons_succ, hago]
        exact ih (i + 1) j

/-- C1: during one tick, a failure while processing one due task (the only
raising statement reachable in `_execute_task` is `json.loads` on the task's
parameters) is caught and does not abort the processing of the remaining due
tasks; the failing task's row is returned entirely unchanged — in particular
its `next_run_at` and `run_count` keep their pre-tick values — because the
failure occurs before any mutation, and every other due task's resulting row
is exactly its own per-task outcome, unaffected by the failure. -/
theorem tick_isolates_per_task_failure
    (jloads : String → Except String Unit) (ug : Nat → String) (now : Int)
    (tasks : List SchedulerTask) (i : Nat) (t : SchedulerTask) (s e : String)
    (ht : tasks[i]? = some t) (hp : t.params = some s) (hs : ¬ s = "")
    (hf : jloads s = Except.error e) :
    ((run_tick jloads ug now tasks).1[i]? = some t ∧
      (some t).map SchedulerTask.next_run_at = some t.next_run_at ∧
      (some t).map SchedulerTask.run_count = some t.run_count) ∧
    ∀ j, ¬ j = i → (run_tick jloads ug now tasks).1[j]?
      = (tasks[j]?).map (fun u => task_after_tick jloads (ug j) now u) := by
  have hg : ∀ j, (run_tick jloads ug now tasks).1[j]?
      = (tasks[j]?).map (fun u => task_after_tick jloads (ug j) now u) := by
    intro j
    have h0 := run_tick_from_getElem jloads ug now tasks 0 j
    simpa [run_tick] using h0
  have hex : execute_task jloads (ug i) t now = Except.error e := by
    simp [execute_task, parse_params, hp, hs, hf]
  refine ⟨⟨?_, rfl, rfl⟩, fun j _ => hg j⟩
  rw [hg i, ht]
  simp [task_after_tick, hex]

/-- Witness for C1 at a two-task tick: the first task's JSON is malformed,
its row is returned unchanged, and the second task is still processed. -/
theorem tick_isolates_per_task_failure_witness :
    (run_tick jl_demo ug_demo 100 [bad_task, good_task]).1[0]? = some bad_task ∧
    (run_tick jl_demo ug_demo 100 [bad_task, good_task]).1[1]?
      = ([bad_task, good_task][1]?).map
          (fun u => task_after_tick jl_demo (ug_demo 1) 100 u) :=
  ⟨(tick_isolates_per_task_failure jl_demo ug_demo 100 [bad_task, good_task] 0
      bad_task "bad json" "Expecting value" rfl rfl (by decide) rfl).1.1,
   (tick_isolates_per_task_failure jl_demo ug_demo 100 [bad_task, good_task] 0
      bad_task "bad json" "Expecting value" rfl rfl (by decide) rfl).2 1 (by decide)⟩

/-- C2: for every task successfully dispatched in a tick at time `now`
(tasks reaching `_execute_task` satisfy `enabled = true` by the tick's
query), the resulting row has `run_count` incremented by exactly one,
`last_run_at = now`, and `enabled = false` holds if and only if the schedule
kind is `once`, or `max_runs > 0` and the incremented count reaches
`max_runs`; otherwise `enabled` is left unchanged. -/
theorem execute_task_updates_counters
    (jloads : String → Except String Unit) (uid : String)
    (task : SchedulerTask) (now : Int) (t' : SchedulerTask) (item : NormalTask)
    (hen : task.enabled = true)
    (hok : execute_task jloads uid task now = Except.ok (t', item)) :
    t'.run_count = task.run_count + 1 ∧
    t'.last_run_at = some now ∧
    (t'.enabled = false ↔
      (task.schedule_type = "once" ∨
        (task.max_runs > 0 ∧ task.run_count + 1 ≥ task.max_runs))) ∧
    (¬ (task.schedule_type = "once" ∨
        (task.max_runs > 0 ∧ task.run_count + 1 ≥ task.max_runs)) →
      t'.enabled = task.enabled) := by
  have ht : t' = execute_task_update task now := by
    cases hpp : parse_params jloads task.params with
    | error e => rw [execute_task, hpp] at hok; exact absurd hok (by simp)
    | ok u =>
      rw [execute_task, hpp] at hok
      simp only [Except.ok.injEq, Prod.mk.injEq] at hok
      exact hok.1.symm
  subst ht
  refine ⟨rfl, rfl, ?_, ?_⟩
  · by_cases hc : task.schedule_type = "once" ∨
        (task.max_runs > 0 ∧ task.run_count + 1 ≥ task.max_runs)
    · simp [execute_task_update, hc]
    · simp [execute_task_update, hc, hen]
  · intro hc; simp [execute_task_update, hc]

/-- Witness for C2 on a concrete dispatched interval task. -/
theorem execute_task_updates_counters_witness :
    (execute_task_update good_task 100).run_count = good_task.run_count + 1 ∧
    (execute_task_update good_task 100).last_run_at = some 100 ∧
    ((execute_task_update good_task 100).enabled = false ↔
      (good_task.schedule_type = "once" ∨
        (good_task.max_runs > 0 ∧ good_task.run_count + 1 ≥ good_task.max_runs))) ∧
    (¬ (good_task.schedule_type = "once" ∨
        (good_task.max_runs > 0 ∧ good_task.run_count + 1 ≥ good_task.max_runs)) →
      (execute_task_update good_task 100).enabled = good_task.enabled) :=
  execute_task_updates_counters jl_demo "wi" good_task 100
    (execute_task_update good_task 100) (mk_normal_task "wi" good_task) rfl rfl

/-- C3 counterexample: at the 4-field expression, the body of
`_parse_cron_next_run` returns `None` without raising any exception
(`Except.ok`), and the value seen by the caller is `none` — no parse error
is raised to the caller, refuting the claim's "raises a parse error". -/
theorem cron_four_fields_raises_nothing_counterexample :
    parse_cron_body "* * * *" 0 = Except.ok none ∧
    parse_cron_next_run "* * * *" 0 = none := ⟨rfl, rfl⟩

/-- C3 amended: for every cron expression whose whitespace-separated field
count is not 5, computing the next run yields no next run time (`none`); the
malformed expression is only logged as a warning — no exception escapes to
the caller. -/
theorem cron_wrong_field_count_yields_none (expr : String) (now : Int)
    (h : ¬ (split_fields expr).length = 5) :
    parse_cron_body expr now = Except.ok none ∧
    parse_cron_next_run expr now = none := by
  have hb : parse_cron_body expr now = Except.ok none := by
    unfold parse_cron_body
    simp [h]
  exact ⟨hb, by simp [parse_cron_next_run, hb]⟩

/-- Witness for the amended C3 at a concrete 4-field expression. -/
theorem cron_wrong_field_count_yields_none_witness :
    parse_cron_body "* * * *" 7 = Except.ok none ∧
    parse_cron_next_run "* * * *" 7 = none :=
  cron_wrong_field_count_yields_none "* * * *" 7 (by decide)

/-- C4: evaluation of the code at the failing input.  At
`now = 85020` (= 23:37:00 UTC on day 0, i.e. a time in the last hour of a
day), `0 * * * *` makes the code construct
`datetime(year, month, day, 23 + 1, 0, 0)`, which raises
`ValueError` (`hour must be in 0..23`); the catch-all turns this into `None`,
so no next run is produced and the task stops firing — while the claim (and
the spec) require 86400, the start of the following hour.  At a mid-day time
(`now = 45420` = 12:37:00) the code does return the start of the following
hour (46800 = 13:00:00), confirming the divergence is confined to the last
hour of the day. -/
theorem cron_hourly_fails_in_last_hour_of_day :
    parse_cron_body "0 * * * *" 85020
      = Except.error (PyErr.valueError "hour must be in 0..23") ∧
    parse_cron_next_run "0 * * * *" 85020 = none ∧
    ¬ parse_cron_next_run "0 * * * *" 85020 = some 86400 ∧
    parse_cron_next_run "0 * * * *" 45420 = some 46800 :=
  ⟨rfl, rfl, by decide, rfl⟩

/-- C5 counterexample: `add` with schedule kind `interval` and no
`interval_seconds` does not fail — it succeeds synchronously, creating an
enabled task whose `interval_seconds` is null.  No `ValidationError` exists
in the code. -/
theorem add_interval_without_seconds_succeeds_counterexample :
    add_scheduler_task [] "tid-1" 1000 "import" "music_scan" "interval"
        none none none none 0 none false
      = Except.ok ("tid-1", [mk_scheduler_task "tid-1" 1000 "import"
          "music_scan" "interval" none none none none 0 none]) ∧
    (mk_scheduler_task "tid-1" 1000 "import" "music_scan" "interval"
        none none none none 0 none).interval_seconds = none ∧
    (mk_scheduler_task "tid-1" 1000 "import" "music_scan" "interval"
        none none none none 0 none).enabled = true := ⟨rfl, rfl, rfl⟩

/-- C5 amended: `add_scheduler_task` performs no validation at all: for
every combination of arguments — including schedule kind `interval` with no
`interval_seconds` and `cron` with no `cron_expression` — the call (absent a
database failure) succeeds and appends a task whose schedule-specific fields
hold exactly the passed values, never a substituted default, with
`enabled = true`. -/
theorem add_scheduler_task_never_validates (reg : List SchedulerTask)
    (uid : String) (now : Int) (name task_type schedule_type : String)
    (params : Option String) (interval_seconds : Option Int)
    (cron_expression : Option String) (execute_at : Option Int)
    (max_runs : Int) (description : Option String) :
    add_scheduler_task reg uid now name task_type schedule_type params
        interval_seconds cron_expression execute_at max_runs description false
      = Except.ok (uid, reg ++ [mk_scheduler_task uid now name task_type
          schedule_type params interval_seconds cron_expression execute_at
          max_runs description]) ∧
    (mk_scheduler_task uid now name task_type schedule_type params
        interval_seconds cron_expression execute_at max_runs
        description).interval_seconds = interval_seconds ∧
    (mk_scheduler_task uid now name task_type schedule_type params
        interval_seconds cron_expression execute_at max_runs
        description).cron_expression = cron_expression ∧
    (mk_scheduler_task uid now name task_type schedule_type params
        interval_seconds cron_expression execute_at max_runs
        description).enabled = true := ⟨rfl, rfl, rfl, rfl⟩

/-- C6 counterexample: pushing a dict without a `type` key raises
`ValueError` — push does not succeed for every ill-formed item. -/
theorem push_task_missing_type_raises_counterexample :
    push_task "u1" [] { task_id := none, ty := none }
      = Except.error "Task must contain the type field" := rfl

/-- C6 amended: for every item that carries a `type` key, push succeeds
(and, the queue being unbounded, never blocks): it assigns the fresh id when
the `task_id` key is absent, appends the item to the queue, and returns the
item's id; an item without a `type` key instead raises `ValueError`. -/
theorem push_task_with_type_succeeds (uid : String) (q : List TaskDict)
    (d : TaskDict) (ts : String) (h : d.ty = some ts) :
    push_task uid q d = Except.ok (d.task_id.getD uid,
      q ++ [{ d with task_id := some (d.task_id.getD uid) }]) := by
  obtain ⟨tid, ty⟩ := d
  cases h
  cases tid <;> rfl

/-- Witness for the amended C6: a well-formed item with its own id. -/
theorem push_task_with_type_succeeds_witness :
    push_task "u2" [] { task_id := some "a", ty := some "music_scan" }
      = Except.ok ("a", [{ task_id := some "a", ty := some "music_scan" }]) :=
  push_task_with_type_succeeds "u2" []
    { task_id := some "a", ty := some "music_scan" } "music_scan" rfl

/-! ## The shared public store -/

/-- After erasing a key, looking it up finds nothing. -/
theorem store_lookup_erase_self {V : Type} (s : PublicStore V) (k : String) :
    store_lookup (store_erase s k) k = none := by
  induction s with
  | nil => rfl
  | cons kv rest ih =>
    by_cases h : kv.1 = k
    · simpa [store_erase, List.filter_cons, h] using ih
    · simpa [store_erase, store_lookup, List.filter_cons, List.find?, h] using ih

/-- C7: after `set(k, v, ttl)`, a `get(k)` strictly more than `ttl` time
units later returns none and deletes the entry (lazy eviction); after
`set(k, v)` with no ttl, `get(k)` at any later time returns `v` and leaves
the store untouched, and the background sweep never removes the entry — it
never expires absent an explicit delete or clear. -/
theorem store_ttl_expiry_and_no_ttl_persistence {V : Type} (s : PublicStore V)
    (k : String) (v : V) (ttl t1 t2 t3 : Int) (h : t2 > t1 + ttl) :
    (get_public (set_public s k v (some ttl) t1) k t2).1 = none ∧
    store_lookup (get_public (set_public s k v (some ttl) t1) k t2).2 k = none ∧
    get_public (set_public s k v none t1) k t3
      = (some v, set_public s k v none t1) ∧
    store_lookup (cleanup (set_public s k v none t1) t3) k
      = some { value := v, expire_at := none } := by
  have hl : store_lookup (set_public s k v (some ttl) t1) k
      = some { value := v, expire_at := some (t1 + ttl) } := by
    simp [set_public, store_lookup, List.find?]
  have hl2 : store_lookup (set_public s k v none t1) k
      = some { value := v, expire_at := none } := by
    simp [set_public, store_lookup, List.find?]
  refine ⟨?_, ?_, ?_, ?_⟩
  · simp [get_public, hl, h]
  · have h2 : (get_public (set_public s k v (some ttl) t1) k t2).2
        = store_erase (set_public s k v (some ttl) t1) k := by
      simp [get_public, hl, h]
    rw [h2]; exact store_lookup_erase_self _ _
  · simp [get_public, hl2]
  · simp [cleanup, set_public, store_lookup, List.find?]

/-- Witness for C7, matching the spec's own scenario: `set(k, v, ttl=1)`
then `get(k)` 2 time units later returns none; a no-ttl entry survives to an
arbitrarily late read. -/
theorem store_ttl_expiry_witness :
    (get_public (set_public ([] : PublicStore Nat) "k" 1 (some 1) 0) "k" 2).1
      = none ∧
    store_lookup
      (get_public (set_public ([] : PublicStore Nat) "k" 1 (some 1) 0) "k" 2).2
      "k" = none ∧
    get_public (set_public ([] : PublicStore Nat) "k" 1 none 0) "k" 1000000
      = (some 1, set_public ([] : PublicStore Nat) "k" 1 none 0) ∧
    store_lookup (cleanup (set_public ([] : PublicStore Nat) "k" 1 none 0)
        1000000) "k"
      = some { value := 1, expire_at := none } :=
  store_ttl_expiry_and_no_ttl_persistence [] "k" 1 1 0 2 1000000 (by decide)

/-- C9: both eviction paths compare with a strict `>`, so at the instant
exactly equal to `expire_at` (storing at `t1` with ttl `ttl` sets
`expire_at = t1 + ttl`) a `get` still returns the stored value and leaves
the store untouched, and the background sweep also keeps the entry: an entry
becomes unavailable only strictly after its `expire_at`. -/
theorem store_expiry_boundary_is_strict {V : Type} (s : PublicStore V)
    (k : String) (v : V) (ttl t1 : Int) :
    get_public (set_public s k v (some ttl) t1) k (t1 + ttl)
      = (some v, set_public s k v (some ttl) t1) ∧
    store_lookup (cleanup (set_public s k v (some ttl) t1) (t1 + ttl)) k
      = some { value := v, expire_at := some (t1 + ttl) } := by
  have hl : store_lookup (set_public s k v (some ttl) t1) k
      = some { value := v, expire_at := some (t1 + ttl) } := by
    simp [set_public, store_lookup, List.find?]
  constructor
  · simp [get_public, hl]
  · simp [cleanup, set_public, store_lookup, List.find?]

/-! ## Administrative operations -/

/-- C8 counterexample: pausing an existing task changes `updated_at` as well
as `enabled` (here from 0 to 99), so it is not the case that every field
other than `enabled` keeps its value. -/
theorem pause_changes_updated_at_counterexample :
    ((pause_task [good_task] "st-2" 99 false).2.headD good_task).enabled
      = false ∧
    good_task.updated_at = 0 ∧
    ((pause_task [good_task] "st-2" 99 false).2.headD good_task).updated_at
      = 99 := ⟨rfl, rfl, rfl⟩

/-- C8 amended: for every existing task id, `pause` (resp. `resume`) applies
exactly the mutation `enabled := false` (resp. `true`) together with
`updated_at := now` to the matched row, and every field other than `enabled`
and `updated_at` keeps its previous value. -/
theorem pause_resume_touch_only_enabled_and_updated_at
    (reg : List SchedulerTask) (tid : String) (now : Int) (t : SchedulerTask)
    (h : reg.find? (fun u => u.task_id = tid) = some t) :
    pause_task reg tid now false
      = (true, update_first reg tid (fun u => pause_update u now)) ∧
    resume_task reg tid now false
      = (true, update_first reg tid (fun u => resume_update u now)) ∧
    ∀ u : SchedulerTask,
      (pause_update u now).enabled = false ∧
      (resume_update u now).enabled = true ∧
      (pause_update u now).updated_at = now ∧
      (resume_update u now).updated_at = now ∧
      (pause_update u now).task_id = u.task_id ∧
      (resume_update u now).task_id = u.task_id ∧
      (pause_update u now).name = u.name ∧
      (resume_update u now).name = u.name ∧
      (pause_update u now).task_type = u.task_type ∧
      (resume_update u now).task_type = u.task_type ∧
      (pause_update u now).params = u.params ∧
      (resume_update u now).params = u.params ∧
      (pause_update u now).schedule_type = u.schedule_type ∧
      (resume_update u now).schedule_type = u.schedule_type ∧
      (pause_update u now).interval_seconds = u.interval_seconds ∧
      (resume_update u now).interval_seconds = u.interval_seconds ∧
      (pause_update u now).cron_expression = u.cron_expression ∧
      (resume_update u now).cron_expression = u.cron_expression ∧
      (pause_update u now).execute_at = u.execute_at ∧
      (resume_update u now).execute_at = u.execute_at ∧
      (pause_update u now).last_run_at = u.last_run_at ∧
      (resume_update u now).last_run_at = u.last_run_at ∧
      (pause_update u now).next_run_at = u.next_run_at ∧
      (resume_update u now).next_run_at = u.next_run_at ∧
      (pause_update u now).run_count = u.run_count ∧
      (resume_update u now).run_count = u.run_count ∧
      (pause_update u now).max_runs = u.max_runs ∧
      (resume_update u now).max_runs = u.max_runs ∧
      (pause_update u now).created_at = u.created_at ∧
      (resume_update u now).created_at = u.created_at ∧
      (pause_update u now).description = u.description ∧
      (resume_update u now).description = u.description := by
  refine ⟨?_, ?_, ?_⟩
  · simp [pause_task, pause_task_body, h]
  · simp [resume_task, resume_task_body, h]
  · intro u
    simp [pause_update, resume_update]

/-- Witness for the amended C8 on a concrete one-task registry. -/
theorem pause_resume_touch_only_witness :
    pause_task [good_task] "st-2" 99 false
      = (true, update_first [good_task] "st-2" (fun u => pause_update u 99)) ∧
    (pause_update good_task 99).enabled = false :=
  ⟨(pause_resume_touch_only_enabled_and_updated_at [good_task] "st-2" 99
      good_task rfl).1,
   ((pause_resume_touch_only_enabled_and_updated_at [good_task] "st-2" 99
      good_task rfl).2.2 good_task).1⟩

/-- C10: `pause_task`, `resume_task` and `delete_task` never raise: their
catch-all turns any failure of the registry mutation into a rollback
returning `(false, unchanged registry)`.  The first triple is unconditional
— it holds in particular for every registry that does contain the id, where
`db_fail = true` makes the commit of the mutated row fail, so the rollback
path on an existing task is exactly what it states.  The second part gives
the unknown-id result: `(false, unchanged registry)` for every fault
behaviour — bitwise the same value as the failed-mutation result, so a
false result does not distinguish a missing task from a failed mutation. -/
theorem admin_ops_fail_closed
    (reg : List SchedulerTask) (tid : String) (now : Int) :
    (pause_task reg tid now true = (false, reg) ∧
     resume_task reg tid now true = (false, reg) ∧
     delete_task reg tid true = (false, reg)) ∧
    (reg.find? (fun u => u.task_id = tid) = none →
      ∀ db_fail : Bool,
        pause_task reg tid now db_fail = (false, reg) ∧
        resume_task reg tid now db_fail = (false, reg) ∧
        delete_task reg tid db_fail = (false, reg)) := by
  refine ⟨⟨?_, ?_, ?_⟩, ?_⟩
  · cases hf : reg.find? (fun u => u.task_id = tid) with
    | some t => simp [pause_task, pause_task_body, hf]
    | none => simp [pause_task, pause_task_body, hf]
  · cases hf : reg.find? (fun u => u.task_id = tid) with
    | some t => simp [resume_task, resume_task_body, hf]
    | none => simp [resume_task, resume_task_body, hf]
  · cases hf : reg.find? (fun u => u.task_id = tid) with
    | some t => simp [delete_task, delete_task_body, hf]
    | none => simp [delete_task, delete_task_body, hf]
  · intro hmiss db_fail
    exact ⟨by simp [pause_task, pause_task_body, hmiss],
      by simp [resume_task, resume_task_body, hmiss],
      by simp [delete_task, delete_task_body, hmiss]⟩

/-- Witness for C10 on a one-task registry: `"st-2"` is the id of the task
the registry does contain, so the first triple shows a failed mutation of an
existing task rolled back to `(false, unchanged registry)`; the second
triple shows the unknown-id `"zzz"` result — the identical value. -/
theorem admin_ops_fail_closed_witness :
    (pause_task [good_task] "st-2" 7 true = (false, [good_task]) ∧
     resume_task [good_task] "st-2" 7 true = (false, [good_task]) ∧
     delete_task [good_task] "st-2" true = (false, [good_task])) ∧
    (pause_task [good_task] "zzz" 7 true = (false, [good_task]) ∧
     resume_task [good_task] "zzz" 7 true = (false, [good_task]) ∧
     delete_task [good_task] "zzz" true = (false, [good_task])) :=
  ⟨(admin_ops_fail_closed [good_task] "st-2" 7).1,
   (admin_ops_fail_closed [good_task] "zzz" 7).2 rfl true⟩
